import Mathlib

/-!
# AutoForge API — verification of the Context Engine against its specification

This file shallowly embeds the parts of the `autoforge` code base that the
frozen claims talk about:

* the dynamic JSON payloads (`metadata`, `proposal`, LLM replies) as the
  inductive type `JVal`, together with the Python dictionary / truthiness /
  comparison operations the source uses on them (fallible operations return
  `Except PyErr _`, mirroring Python exceptions);
* the ECK-lite audits: `ContextEngine._audit` (src/autoforge/engine/context.py)
  and the domain-registry audits (src/autoforge/domains/*.py);
* the retrieval pipeline `ContextEngine.search` over a pgvector store
  (src/autoforge/adapters/pgvector.py), with the LLM / embedder / graph
  adapters modelled as an oracle environment (`SearchEnv`);
* `ContextEngine.learn`, its metadata assembly and graph-enrichment step;
* `PgVectorDB.cleanup_old_facts` with SQL three-valued logic;
* the in-memory TTL cache and the HyDE step `_generate_hyde`;
* `Neo4jGraphDB.upsert_relations` relation-label sanitisation;
* the tenacity retry wrapper of `TokenAwareLLMClient.chat` / `chat_json`.
-/

/-! ## Dynamic JSON values (Python objects produced by `json.loads`) -/

/-- A JSON value as produced by Python's `json.loads`: `int` and `float` are
distinct Python types (and `isinstance(x, int)` distinguishes them), so they
are separate constructors.  Python floats are modelled as rationals; every
numeric literal appearing in the source's audit thresholds and in the claims
is exactly representable.  Objects are association lists; JSON parsing and
the dict-literal merge in `learn` make the *last* binding of a key the
effective one. -/
inductive JVal where
  | null
  | bool (b : Bool)
  | int (n : Int)
  | float (q : Rat)
  | str (s : String)
  | arr (xs : List JVal)
  | obj (kvs : List (String × JVal))
deriving Repr, BEq, Inhabited

/-- Python exceptions that the embedded code can raise, plus the SQL cast
error used by the `::float` casts in `cleanup_old_facts`. -/
inductive PyErr where
  | transport
  | rateLimited
  | http5xx
  | http4xx
  | jsonDecode
  | typeError
  | attributeError
  | castError
deriving Repr, BEq, DecidableEq, Inhabited

/-- Last-binding-wins lookup in an association list (Python dict lookup when
the list arises from a dict literal with `**` merges). -/
def lookupLast (kvs : List (String × JVal)) (k : String) : Option JVal :=
  kvs.foldl (fun acc p => if p.1 = k then some p.2 else acc) none

/-- Python truthiness (`bool(x)`) for JSON-derived values. -/
def pyTruthy : JVal → Bool
  | .null => false
  | .bool b => b
  | .int n => n ≠ 0
  | .float q => q ≠ 0
  | .str s => s ≠ ""
  | .arr xs => ¬ xs.isEmpty
  | .obj kvs => ¬ kvs.isEmpty

/-- Python `d.get(k, default)`: raises `AttributeError` when the receiver is
not a dict; a key stored with JSON `null` yields Python `None` (`JVal.null`),
not the default. -/
def pyGetD (v : JVal) (k : String) (dflt : JVal) : Except PyErr JVal :=
  match v with
  | .obj kvs =>
    match lookupLast kvs k with
    | some x => .ok x
    | none => .ok dflt
  | _ => .error .attributeError

/-- Python `d.get(k)` followed by an `is not None` guard: both a missing key
and a stored JSON `null` come out as `none`. -/
def pyGetOpt (v : JVal) (k : String) : Except PyErr (Option JVal) :=
  match v with
  | .obj kvs =>
    match lookupLast kvs k with
    | some .null => .ok none
    | some x => .ok (some x)
    | none => .ok none
  | _ => .error .attributeError

/-- The numeric value Python uses in comparisons: ints, floats, and bools
(`True == 1`, `False == 0`).  `none` means the comparison raises `TypeError`. -/
def pyNumOf : JVal → Option Rat
  | .int n => some (n : Rat)
  | .float q => some q
  | .bool b => some (if b then 1 else 0)
  | _ => none

/-- Python `str(x)` for the values that can reach an f-string in the audits
(numbers and bools; other types raise earlier in each rule).  Floats are
rendered in decimal (`fracDigits` below), matching `str` on the finite
decimals produced by `json.loads`. -/
def fracDigits (fuel : Nat) (num den : Nat) : String :=
  match fuel with
  | 0 => ""
  | fuel' + 1 =>
    if num = 0 then ""
    else
      let d := num * 10 / den
      let r := num * 10 % den
      toString d ++ fracDigits fuel' r den

/-- Decimal rendering of a rational Python float (`str(50.5) = "50.5"`,
`str(50.0) = "50.0"`). -/
def ratDec (q : Rat) : String :=
  let sign := if q < 0 then "-" else ""
  let n := q.num.natAbs
  let d := q.den
  let whole := n / d
  let frac := n % d
  if frac = 0 then sign ++ toString whole ++ ".0"
  else sign ++ toString whole ++ "." ++ fracDigits 40 frac d

def pyStr : JVal → String
  | .null => "None"
  | .bool b => if b then "True" else "False"
  | .int n => toString n
  | .float q => ratDec q
  | .str s => s
  | .arr _ => "[...]"
  | .obj _ => "{...}"

/-- Python `for x in v`: lists yield their elements, strings their
characters (as one-character strings), dicts their keys; numbers, bools and
`None` raise `TypeError`. -/
def pyIterList : JVal → Except PyErr (List JVal)
  | .arr xs => .ok xs
  | .str s => .ok (s.toList.map (fun c => .str (String.mk [c])))
  | .obj kvs => .ok (kvs.map (fun p => .str p.1))
  | _ => .error .typeError

/-- Python `needle in hay` for a string needle: substring test on strings,
membership on lists, key lookup on dicts, `TypeError` otherwise. -/
def pyInContains (needle : String) (hay : JVal) : Except PyErr Bool :=
  match hay with
  | .str s => .ok (decide (needle.toList <:+: s.toList))
  | .arr xs => .ok (xs.any (fun x => x == .str needle))
  | .obj kvs => .ok (kvs.any (fun p => p.1 = needle))
  | _ => .error .typeError

/-- Equality of an optional JSON value against a string literal
(`r.get("type") == "follow_up"`; `None == "x"` is `False`, never raises). -/
def pyEqStr (v : Option JVal) (s : String) : Bool :=
  match v with
  | some (.str t) => t = s
  | _ => false

/-- Python `len(x)`: strings count code points, lists elements, dicts keys. -/
def pyLen : JVal → Except PyErr Nat
  | .str s => .ok s.length
  | .arr xs => .ok xs.length
  | .obj kvs => .ok kvs.length
  | _ => .error .typeError

/-- Short-circuiting `any(f(r) for r in l)`. -/
def pyAnyM (f : JVal → Except PyErr Bool) : List JVal → Except PyErr Bool
  | [] => .ok false
  | x :: xs =>
    match f x with
    | .error e => .error e
    | .ok true => .ok true
    | .ok false => pyAnyM f xs

/-- A `for`-loop that appends messages (`errors.append(...)` /
`warnings.append(...)`), propagating the first exception. -/
def pyForCollect (f : JVal → Except PyErr (List String)) :
    List JVal → Except PyErr (List String)
  | [] => .ok []
  | x :: xs =>
    match f x with
    | .error e => .error e
    | .ok ys =>
      match pyForCollect f xs with
      | .error e => .error e
      | .ok rest => .ok (ys ++ rest)

/-- Same, collecting errors and warnings in one pass (music rule 2 appends to
both lists while iterating once). -/
def pyForCollect2 (f : JVal → Except PyErr (List String × List String)) :
    List JVal → Except PyErr (List String × List String)
  | [] => .ok ([], [])
  | x :: xs =>
    match f x with
    | .error e => .error e
    | .ok ys =>
      match pyForCollect2 f xs with
      | .error e => .error e
      | .ok rest => .ok (ys.1 ++ rest.1, ys.2 ++ rest.2)

/-- `len([r for r in recs if not r.get("specific_values")])`. -/
def pyCountNotTruthyGet (k : String) : List JVal → Except PyErr Nat
  | [] => .ok 0
  | x :: xs =>
    match pyGetD x k .null with
    | .error e => .error e
    | .ok v =>
      match pyCountNotTruthyGet k xs with
      | .error e => .error e
      | .ok n => .ok ((if pyTruthy v then 0 else 1) + n)

/-! ## AuditResult and the ECK-lite audits -/

/-- `AuditResult` from src/autoforge/models.py. -/
structure AuditResult where
  is_valid : Bool
  errors : List String
  warnings : List String
deriving Repr, BEq, DecidableEq, Inhabited

/-- `AuditResult(is_valid=len(errors) == 0, errors=errors, warnings=warnings)`
— the constructor call every audit finishes with. -/
def mkAudit (errs warns : List String) : AuditResult :=
  ⟨errs.isEmpty, errs, warns⟩

/-- The early return for an empty `recommendations` list:
`AuditResult(is_valid=False, errors=["提案が空です"])`. -/
def emptyProposalResult : AuditResult :=
  ⟨false, ["提案が空です"], []⟩

/-- Shared prologue of every audit:
`recommendations = proposal.get("recommendations", [])` followed by the
`if not recommendations:` guard.  The guard only tests truthiness — it does
NOT iterate the value; iteration happens (and a truthy non-iterable raises
`TypeError`) only at the first rule loop, which is why each rules function
below receives the raw value and materialises it at its own first loop. -/
def auditRecsGuard (p : JVal) : Except PyErr (Option JVal) :=
  match pyGetD p "recommendations" (.arr []) with
  | .error e => .error e
  | .ok recs => .ok (if pyTruthy recs then some recs else none)

/-- Guard / rules / final-constructor skeleton shared by
`ContextEngine._audit` and the four domain modules' `audit` functions, all
of which have exactly this shape in the source. -/
def runAudit (rules : JVal → JVal → Except PyErr (List String × List String))
    (p : JVal) : Except PyErr AuditResult :=
  match auditRecsGuard p with
  | .error e => .error e
  | .ok none => .ok emptyProposalResult
  | .ok (some recs) =>
    match rules recs p with
    | .error e => .error e
    | .ok (errs, warns) => .ok (mkAudit errs warns)

/-! ### ad_optimization rules
(src/autoforge/domains/ad_optimization.py `audit`, textually identical to the
inline `domain == "ad_optimization"` branch of `ContextEngine._audit`). -/

/-- One conjunct of the `has_offensive` generator:
`r.get("type") in (...) and "引き下げ" not in r.get("action", "") and
"削減" not in r.get("action", "")`. -/
def adOffensive (r : JVal) : Except PyErr Bool :=
  match pyGetOpt r "type" with
  | .error e => .error e
  | .ok t =>
    if pyEqStr t "bid_adjustment" || pyEqStr t "keyword_add" ||
        pyEqStr t "targeting" || pyEqStr t "budget_change" then
      match pyGetD r "action" (.str "") with
      | .error e => .error e
      | .ok act =>
        match pyInContains "引き下げ" act with
        | .error e => .error e
        | .ok c1 =>
          if c1 then .ok false
          else
            match pyInContains "削減" act with
            | .error e => .error e
            | .ok c2 => .ok (!c2)
    else .ok false

/-- Rule 3: error when `abs(bid_change) > 50`. -/
def adRule3 (r : JVal) : Except PyErr (List String) :=
  match pyGetD r "specific_values" (.obj []) with
  | .error e => .error e
  | .ok vals =>
    match pyGetOpt vals "bid_change_percent" with
    | .error e => .error e
    | .ok none => .ok []
    | .ok (some v) =>
      match pyNumOf v with
      | none => .error .typeError
      | some q =>
        .ok (if |q| > 50 then
          ["入札変更率が" ++ pyStr v ++ "%は極端すぎます（上限±50%）"] else [])

/-- Rule 4: warning when `abs(budget_change) > 30`. -/
def adRule4 (r : JVal) : Except PyErr (List String) :=
  match pyGetD r "specific_values" (.obj []) with
  | .error e => .error e
  | .ok vals =>
    match pyGetOpt vals "budget_change_percent" with
    | .error e => .error e
    | .ok none => .ok []
    | .ok (some v) =>
      match pyNumOf v with
      | none => .error .typeError
      | some q =>
        .ok (if |q| > 30 then
          ["予算変更率" ++ pyStr v ++ "%は急激です（推奨±30%以内）"] else [])

/-- The rule block of the ad_optimization audit.  Its first statement,
`has_offensive = any(... for r in recommendations)`, is the first iteration
of `recommendations`, so the value is materialised here (a truthy
non-iterable raises `TypeError` at this point, exactly as in the source;
re-iterations in the later rules see the same elements). -/
def adRules (recs : JVal) (_p : JVal) :
    Except PyErr (List String × List String) :=
  match pyIterList recs with
  | .error e => .error e
  | .ok rl =>
  match pyAnyM adOffensive rl with
  | .error e => .error e
  | .ok off =>
    let w1 : List String :=
      if off then [] else ["全ての提案が守備的です。攻めの提案を追加してください。"]
    match pyCountNotTruthyGet "specific_values" rl with
    | .error e => .error e
    | .ok cnt =>
      let w2 : List String :=
        if cnt = 0 then [] else [toString cnt ++ "件の提案に具体的な数値がありません"]
      match pyForCollect adRule3 rl with
      | .error e => .error e
      | .ok errs3 =>
        match pyForCollect adRule4 rl with
        | .error e => .error e
        | .ok w4 => .ok (errs3, w1 ++ w2 ++ w4)

/-! ### music_production rules
(src/autoforge/domains/music_production.py `audit`, textually identical to
the inline `domain == "music_production"` branch of `ContextEngine._audit`;
the engine branch additionally defines an unused `bpm_ranges` dict). -/

/-- Rule 2 per-recommendation body: cutoff / resonance errors, reverb
warning. -/
def musicRule2 (r : JVal) : Except PyErr (List String × List String) :=
  match pyGetD r "specific_values" (.obj []) with
  | .error e => .error e
  | .ok vals =>
    match pyGetOpt vals "filter_cutoff" with
    | .error e => .error e
    | .ok cutoff =>
      match (match cutoff with
             | none => .ok []
             | some v =>
               match pyNumOf v with
               | none => .error .typeError
               | some q =>
                 .ok (if 0 ≤ q ∧ q ≤ 1 then []
                      else ["filter_cutoff " ++ pyStr v ++ " は 0.0-1.0 の範囲外です"]) :
             Except PyErr (List String)) with
      | .error e => .error e
      | .ok e1 =>
        match pyGetOpt vals "filter_resonance" with
        | .error e => .error e
        | .ok reso =>
          match (match reso with
                 | none => .ok []
                 | some v =>
                   match pyNumOf v with
                   | none => .error .typeError
                   | some q =>
                     .ok (if 0 ≤ q ∧ q ≤ 1 then []
                          else ["filter_resonance " ++ pyStr v ++ " は 0.0-1.0 の範囲外です"]) :
                 Except PyErr (List String)) with
          | .error e => .error e
          | .ok e2 =>
            match pyGetOpt vals "reverb_size" with
            | .error e => .error e
            | .ok reverb =>
              match (match reverb with
                     | none => .ok []
                     | some v =>
                       match pyNumOf v with
                       | none => .error .typeError
                       | some q =>
                         .ok (if 0 ≤ q ∧ q ≤ 1 then []
                              else ["reverb_size " ++ pyStr v ++ " は 0.0-1.0 の範囲外です"]) :
                     Except PyErr (List String)) with
              | .error e => .error e
              | .ok w3 => .ok (e1 ++ e2, w3)

/-- The rule block of the music_production audit.  In the source the
`track_structure` lookup and the BPM check precede the first iteration of
`recommendations` (the rule-2 loop), so `recs` is materialised only after
them — a non-dict `track` raises before a non-iterable `recs` does. -/
def musicRules (recs : JVal) (p : JVal) :
    Except PyErr (List String × List String) :=
  match pyGetD p "track_structure" (.obj []) with
  | .error e => .error e
  | .ok track =>
    match pyGetOpt track "bpm" with
    | .error e => .error e
    | .ok bpmOpt =>
      match (match bpmOpt with
             | none => .ok []
             | some v =>
               match pyNumOf v with
               | none => .error .typeError
               | some q =>
                 .ok (if q < 30 ∨ q > 300 then
                      ["BPM " ++ pyStr v ++ " は範囲外です（30-300）"] else []) :
             Except PyErr (List String)) with
      | .error e => .error e
      | .ok e1 =>
        match pyIterList recs with
        | .error e => .error e
        | .ok rl =>
        match pyForCollect2 musicRule2 rl with
        | .error e => .error e
        | .ok ew2 =>
          match pyGetD track "sections" (.arr []) with
          | .error e => .error e
          | .ok sections =>
            let w3 : List String :=
              if pyTruthy track ∧ ¬ pyTruthy sections then
                ["track_structure にセクション定義がありません"] else []
            match pyGetD track "channels" (.arr []) with
            | .error e => .error e
            | .ok channels =>
              match pyLen channels with
              | .error e => .error e
              | .ok n =>
                let w4 : List String :=
                  if n > 16 then
                    ["チャンネル数 " ++ toString n ++ " は FLM の制限を超える可能性があります"]
                  else []
                .ok (e1 ++ ew2.1, ew2.2 ++ w3 ++ w4)

/-! ### sales rules (src/autoforge/domains/sales.py `audit`). -/

/-- Rule 1: `discount is not None and discount > 40`. -/
def salesRule1 (r : JVal) : Except PyErr (List String) :=
  match pyGetD r "specific_values" (.obj []) with
  | .error e => .error e
  | .ok vals =>
    match pyGetOpt vals "discount_max_percent" with
    | .error e => .error e
    | .ok none => .ok []
    | .ok (some v) =>
      match pyNumOf v with
      | none => .error .typeError
      | some q =>
        .ok (if q > 40 then
          ["割引率 " ++ pyStr v ++ "% は上限40%を超えています"] else [])

/-- Rule 2: `win_prob < 0 or win_prob > 100`. -/
def salesRule2 (r : JVal) : Except PyErr (List String) :=
  match pyGetD r "specific_values" (.obj []) with
  | .error e => .error e
  | .ok vals =>
    match pyGetOpt vals "win_probability_percent" with
    | .error e => .error e
    | .ok none => .ok []
    | .ok (some v) =>
      match pyNumOf v with
      | none => .error .typeError
      | some q =>
        .ok (if q < 0 ∨ q > 100 then
          ["受注確率 " ++ pyStr v ++ "% は範囲外です（0-100%）"] else [])

/-- The rule block of the sales audit; its first statement (the rule-1
discount loop) is the first iteration of `recommendations`. -/
def salesRules (recs : JVal) (p : JVal) :
    Except PyErr (List String × List String) :=
  match pyIterList recs with
  | .error e => .error e
  | .ok rl =>
  match pyForCollect salesRule1 rl with
  | .error e => .error e
  | .ok e1 =>
    match pyForCollect salesRule2 rl with
    | .error e => .error e
    | .ok e2 =>
      match pyGetD p "customer_analysis" .null with
      | .error e => .error e
      | .ok ca =>
        let w3 : List String :=
          if pyTruthy ca then [] else ["顧客分析（customer_analysis）が含まれていません"]
        match pyAnyM (fun r =>
            match pyGetOpt r "type" with
            | .error e => .error e
            | .ok t => .ok (pyEqStr t "follow_up")) rl with
        | .error e => .error e
        | .ok hasFu =>
          let w4 : List String :=
            if hasFu then [] else ["フォローアップ戦略が含まれていません"]
          match pyCountNotTruthyGet "specific_values" rl with
          | .error e => .error e
          | .ok cnt =>
            let w5 : List String :=
              if cnt = 0 then [] else [toString cnt ++ "件の提案に具体的な数値がありません"]
            .ok (e1 ++ e2, w3 ++ w4 ++ w5)

/-! ### customer_support rules (src/autoforge/domains/customer_support.py). -/

/-- Rule 1: `level < 0 or level > 3`. -/
def csRule1 (r : JVal) : Except PyErr (List String) :=
  match pyGetD r "specific_values" (.obj []) with
  | .error e => .error e
  | .ok vals =>
    match pyGetOpt vals "escalation_level" with
    | .error e => .error e
    | .ok none => .ok []
    | .ok (some v) =>
      match pyNumOf v with
      | none => .error .typeError
      | some q =>
        .ok (if q < 0 ∨ q > 3 then
          ["エスカレーションレベル " ++ pyStr v ++ " は範囲外です（0-3）"] else [])

/-- Rule 2: `csat < 0.0 or csat > 5.0`. -/
def csRule2 (r : JVal) : Except PyErr (List String) :=
  match pyGetD r "specific_values" (.obj []) with
  | .error e => .error e
  | .ok vals =>
    match pyGetOpt vals "csat_target" with
    | .error e => .error e
    | .ok none => .ok []
    | .ok (some v) =>
      match pyNumOf v with
      | none => .error .typeError
      | some q =>
        .ok (if q < 0 ∨ q > 5 then
          ["CSAT目標 " ++ pyStr v ++ " は範囲外です（0.0-5.0）"] else [])

/-- Rule 3: `resolution < 0`. -/
def csRule3 (r : JVal) : Except PyErr (List String) :=
  match pyGetD r "specific_values" (.obj []) with
  | .error e => .error e
  | .ok vals =>
    match pyGetOpt vals "estimated_resolution_minutes" with
    | .error e => .error e
    | .ok none => .ok []
    | .ok (some v) =>
      match pyNumOf v with
      | none => .error .typeError
      | some q =>
        .ok (if q < 0 then ["解決時間は正の値である必要があります"] else [])

/-- The rule block of the customer_support audit; its first statement (the
rule-1 escalation-level loop) is the first iteration of `recommendations`. -/
def csRules (recs : JVal) (p : JVal) :
    Except PyErr (List String × List String) :=
  match pyIterList recs with
  | .error e => .error e
  | .ok rl =>
  match pyForCollect csRule1 rl with
  | .error e => .error e
  | .ok e1 =>
    match pyForCollect csRule2 rl with
    | .error e => .error e
    | .ok e2 =>
      match pyForCollect csRule3 rl with
      | .error e => .error e
      | .ok e3 =>
        match pyGetD p "ticket_analysis" .null with
        | .error e => .error e
        | .ok ta =>
          let w4 : List String :=
            if pyTruthy ta then [] else ["チケット分析（ticket_analysis）が含まれていません"]
          match pyGetD p "ticket_analysis" (.obj []) with
          | .error e => .error e
          | .ok ticket =>
            match pyGetOpt ticket "urgency" with
            | .error e => .error e
            | .ok urg =>
              match pyGetOpt ticket "sentiment" with
              | .error e => .error e
              | .ok sent =>
                match (if pyEqStr urg "high" || pyEqStr sent "angry" then
                        match pyAnyM (fun r =>
                            match pyGetOpt r "type" with
                            | .error e => .error e
                            | .ok t => .ok (pyEqStr t "escalation")) rl with
                        | .error e => .error e
                        | .ok hasEsc =>
                          .ok (if hasEsc then ([] : List String)
                               else ["緊急度が高いがエスカレーション提案がありません"])
                       else .ok [] : Except PyErr (List String)) with
                | .error e => .error e
                | .ok w5 => .ok (e1 ++ e2 ++ e3, w4 ++ w5)

/-! ### The audit entry points -/

/-- `autoforge.domains.ad_optimization.audit`. -/
def adAudit (p : JVal) : Except PyErr AuditResult := runAudit adRules p

/-- `autoforge.domains.music_production.audit`. -/
def musicAudit (p : JVal) : Except PyErr AuditResult := runAudit musicRules p

/-- `autoforge.domains.sales.audit`. -/
def salesAudit (p : JVal) : Except PyErr AuditResult := runAudit salesRules p

/-- `autoforge.domains.customer_support.audit`. -/
def csAudit (p : JVal) : Except PyErr AuditResult := runAudit csRules p

/-- `ContextEngine._audit` (src/autoforge/engine/context.py, lines 384-483):
the shared prologue, then inline rule blocks only for `"ad_optimization"` and
`"music_production"` — any other domain, `"sales"` and `"customer_support"`
included, gets no domain rules at all. -/
def engineAudit (p : JVal) (domain : String) : Except PyErr AuditResult :=
  runAudit
    (fun rl pp =>
      if domain = "ad_optimization" then adRules rl pp
      else if domain = "music_production" then musicRules rl pp
      else .ok ([], []))
    p

/-- The audit step of `ContextEngine.propose`
(src/autoforge/engine/context.py line 292): `audit = self._audit(proposal,
domain)` — the engine's own `_audit`, not the domain registry's
`audit_proposal`. -/
def proposeAuditStep (proposal : JVal) (domain : String) : Except PyErr AuditResult :=
  engineAudit proposal domain

/-- `autoforge.domains.audit_proposal` (src/autoforge/domains/__init__.py):
its own empty-recommendations guard, then dispatch to the registered
domain module, else a pass-through valid result.  The embedding models the
normal runtime in which all four listed modules load without error
(spec §4.6). -/
def audit_proposal (p : JVal) (domain : String) : Except PyErr AuditResult :=
  match pyGetD p "recommendations" (.arr []) with
  | .error e => .error e
  | .ok recs =>
    if pyTruthy recs then
      if domain = "ad_optimization" then adAudit p
      else if domain = "music_production" then musicAudit p
      else if domain = "sales" then salesAudit p
      else if domain = "customer_support" then csAudit p
      else .ok ⟨true, [], []⟩
    else .ok emptyProposalResult

/-! ## The vector store and `ContextEngine.search` -/

/-- A row of the `documents` table as returned by `PgVectorDB.search`
(src/autoforge/adapters/pgvector.py): id, content and parsed metadata.  The
`similarity` float the adapter also returns is carried through the engine
unused by every claim, so it is not modelled. -/
structure Doc where
  id : String
  content : String
  metadata : List (String × JVal)
deriving Repr, BEq, Inhabited

/-- Minimal JSON escaping for the text image of nested values. -/
def jsonEscapeChar (c : Char) : String :=
  if c = '"' then "\\\"" else if c = '\\' then "\\\\" else String.mk [c]

mutual

/-- The text Postgres produces for a jsonb value inside a container.
Container and non-integral float images are structurally reasonable but not
byte-exact (jsonb canonicalises spacing and key order); every claim below
compares only string and integer scalars, where the image is exact. -/
def jsonRender : JVal → String
  | .null => "null"
  | .bool b => if b then "true" else "false"
  | .int n => toString n
  | .float q => ratDec q
  | .str s => "\"" ++ String.join (s.toList.map jsonEscapeChar) ++ "\""
  | .arr xs => "[" ++ jsonRenderList xs ++ "]"
  | .obj kvs => "\x7b" ++ jsonRenderObj kvs ++ "\x7d"

def jsonRenderList : List JVal → String
  | [] => ""
  | [x] => jsonRender x
  | x :: y :: xs => jsonRender x ++ ", " ++ jsonRenderList (y :: xs)

def jsonRenderObj : List (String × JVal) → String
  | [] => ""
  | [(k, v)] => "\"" ++ k ++ "\": " ++ jsonRender v
  | (k, v) :: p :: kvs =>
    "\"" ++ k ++ "\": " ++ jsonRender v ++ ", " ++ jsonRenderObj (p :: kvs)

end

/-- The SQL text `metadata->>'k'` extracts: `NULL` (`none`) for a JSON null,
the bare string for a JSON string, and the value's JSON text otherwise. -/
def jvalSqlText : JVal → Option String
  | .null => none
  | .str s => some s
  | v => some (jsonRender v)

/-- `metadata->>'k'` on a metadata map: SQL `NULL` when the key is absent or
holds JSON null. -/
def arrowText (md : List (String × JVal)) (k : String) : Option String :=
  (lookupLast md k).bind jvalSqlText

/-- One conjunct `metadata->>'key' = $i` of the WHERE clause built by
`PgVectorDB.search`: a SQL `NULL` on the left makes the comparison unknown,
which excludes the row. -/
def sqlTextEq (v : Option String) (s : String) : Bool :=
  match v with
  | none => false
  | some t => t = s

/-- The conjunctive metadata filter of `PgVectorDB.search`
(`WHERE` clauses ANDed; parameters are `str(val)` of the filter values,
which the engine always passes as strings). -/
def matchesFilter (md : List (String × JVal)) (F : List (String × String)) : Bool :=
  F.all (fun kv => sqlTextEq (arrowText md kv.1) kv.2)

/-- Insertion into a list kept sorted by ascending rank (the `ORDER BY
vector <=> $1::vector` of the search query; which permutation the database
produces for ties is irrelevant to every claim). -/
def insertByRank (rank : Doc → Rat) (d : Doc) : List Doc → List Doc
  | [] => [d]
  | x :: xs => if rank d ≤ rank x then d :: x :: xs else x :: insertByRank rank d xs

def sortByRank (rank : Doc → Rat) (xs : List Doc) : List Doc :=
  xs.foldl (fun s d => insertByRank rank d s) []

/-- `PgVectorDB.search(vector, top_k, filter_metadata)`
(src/autoforge/adapters/pgvector.py, lines 62-112): filter by the metadata
conjunction, order by distance to the query vector, return the first
`top_k`.  `rank d` stands for the cosine distance `d.vector <=> $1`; the
IEEE float arithmetic itself is outside the embedding, and no claim depends
on the ordering. -/
def dbSearch (docs : List Doc) (rank : Doc → Rat) (top_k : Nat)
    (F : List (String × String)) : List Doc :=
  (sortByRank rank (docs.filter (fun d => matchesFilter d.metadata F))).take top_k

/-- `filter_meta = {"tenant_id": tenant_id}` plus `user_id` when the
argument is truthy (`if user_id:` skips both `None` and `""`). -/
def filterOf (tenant : String) (user : Option String) : List (String × String) :=
  ("tenant_id", tenant) ::
    (match user with
     | some u => if u = "" then [] else [("user_id", u)]
     | none => [])

/-- `all_docs[doc["id"]] = doc` on the id-keyed accumulator dict. -/
def accPut (acc : List Doc) (d : Doc) : List Doc :=
  if acc.any (fun x => x.id = d.id) then
    acc.map (fun x => if x.id = d.id then d else x)
  else acc ++ [d]

/-- `if doc["id"] not in all_docs: all_docs[doc["id"]] = doc`. -/
def accInsertNew (acc : List Doc) (d : Doc) : List Doc :=
  if acc.any (fun x => x.id = d.id) then acc else acc ++ [d]

/-- The oracle environment for one `ContextEngine.search` call: the
`documents` table, and the replies of the nondeterministic collaborators
(LLM, embedder, graph store) as functions of the texts the engine hands
them.  Universally quantifying over this structure covers every behaviour
of those collaborators. -/
structure SearchEnv where
  /-- The rows of the `documents` table. -/
  docs : List Doc
  /-- The `_generate_hyde` reply for this query. -/
  hyde : String
  /-- `rank t d` — the cosine distance of `d.vector` from `embed(t)`. -/
  rank : String → Doc → Rat
  /-- `_extract_entities` reply on the combined hop text. -/
  entities : String → List String
  /-- `self.graph_db` is not `None`. -/
  graphConfigured : Bool
  /-- `graph_db.expand(entities, depth=1)` reply. -/
  neighbors : List String → List String
  /-- The `"ranked"` array of the `_rerank` LLM reply (with the
  `result.get("ranked", list(range(len(docs))))` default already applied; a
  reply whose `"ranked"` is an `int`/`float` makes the source raise before
  returning, so it cannot contribute to any returned-documents claim). -/
  rerankRanked : List JVal

/-- One iteration body of the multi-hop loop in `ContextEngine.search`
(src/autoforge/engine/context.py, lines 166-189). -/
def hopBody (env : SearchEnv) (F : List (String × String)) (acc : List Doc) : List Doc :=
  let blob := String.intercalate " " (acc.map (fun d => d.content.take 200))
  let ents := env.entities blob
  if env.graphConfigured && !ents.isEmpty then
    let nb := env.neighbors ents
    if !nb.isEmpty then
      let ntext := String.intercalate " " nb
      (dbSearch env.docs (env.rank ntext) 3 F).foldl accInsertNew acc
    else acc
  else acc

/-- `for hop in range(settings.max_hops): ...` with its two `break`s. -/
def hopLoop (env : SearchEnv) (F : List (String × String)) (candMax : Nat) :
    Nat → List Doc → List Doc
  | 0, acc => acc
  | n + 1, acc =>
    if acc.isEmpty then acc
    else
      let acc' := hopBody env F acc
      if candMax ≤ acc'.length then acc'
      else hopLoop env F candMax n acc'

/-- `isinstance(idx, int)` plus the `0 <= idx < len(docs)` bound; Python
bools pass `isinstance(_, int)` with values 1 and 0. -/
def pyIntIdx : JVal → Option Int
  | .int n => some n
  | .bool b => some (if b then 1 else 0)
  | _ => none

/-- The index-selection loop of `_rerank`. -/
def rerankChosen (docs : List Doc) : List JVal → List Doc
  | [] => []
  | j :: js =>
    (match pyIntIdx j with
     | some n =>
       if 0 ≤ n then
         match docs.get? n.toNat with
         | some d => [d]
         | none => []
       else []
     | none => []) ++ rerankChosen docs js

/-- `ContextEngine._rerank` (src/autoforge/engine/context.py, lines
118-137): keep the first `rerank_final_limit` valid indices of the LLM's
`"ranked"` list; fall back to the accumulator prefix when none are valid. -/
def rerankStep (finalLimit : Nat) (ranked : List JVal) (docs : List Doc) : List Doc :=
  if docs.length ≤ finalLimit then docs
  else
    let chosen := rerankChosen docs (ranked.take finalLimit)
    if chosen.isEmpty then docs.take finalLimit else chosen

/-- The `settings` fields `ContextEngine.search` reads (defaults 3 / 5 / 50
/ 20 in src/autoforge/config.py). -/
structure SearchCfg where
  maxHops : Nat
  ragTopK : Nat
  rerankCandidatesMax : Nat
  rerankFinalLimit : Nat
deriving Repr

/-- `ContextEngine.search` (src/autoforge/engine/context.py, lines 141-207):
HyDE → filtered vector search → multi-hop graph expansion → conditional
rerank.  The trailing `increment_counter` call mutates only stored counters,
never the returned list, and is modelled with the store (`Doc` rows) left
untouched. -/
def engineSearch (env : SearchEnv) (cfg : SearchCfg) (tenant : String)
    (user : Option String) : List Doc :=
  let F := filterOf tenant user
  let initial := dbSearch env.docs (env.rank env.hyde) cfg.ragTopK F
  let acc0 := initial.foldl accPut []
  let docs := hopLoop env F cfg.rerankCandidatesMax cfg.maxHops acc0
  if cfg.rerankFinalLimit < docs.length then
    rerankStep cfg.rerankFinalLimit env.rerankRanked docs
  else docs

/-! ## `ContextEngine.learn` -/

/-- The metadata dict literal of `learn` (src/autoforge/engine/context.py,
lines 223-231): reserved keys first, optional `user_id`, then the
caller-supplied map unpacked **last**, so its bindings win on collision. -/
def docMetadata (tenant category : String) (ts : Rat) (user : Option String)
    (md : List (String × JVal)) : List (String × JVal) :=
  [("tenant_id", .str tenant), ("category", .str category),
   ("timestamp", .float ts), ("access_count", .int 0),
   ("importance_score", .float 1)] ++
  (match user with
   | some u => if u = "" then [] else [("user_id", .str u)]
   | none => []) ++ md

/-- `tuple(r[:3])` guarded by `isinstance(r, list) and len(r) >= 3`. -/
def keepFirst3 : JVal → Option (JVal × JVal × JVal)
  | .arr (a :: b :: c :: _) => some (a, b, c)
  | _ => none

/-- The triple filter of `ContextEngine._extract_relations`
(src/autoforge/engine/context.py, lines 98-114) applied to the parsed
`chat_json` reply: `raw = result.get("relations", [])` then
`valid = [tuple(r[:3]) for r in raw if isinstance(r, list) and len(r) >= 3]`.
The per-text cache consulted first is modelled in the miss state (a hit
returns a previously kept list unchanged). -/
def extractRelationsKept (reply : JVal) : Except PyErr (List (JVal × JVal × JVal)) :=
  match pyGetD reply "relations" (.arr []) with
  | .error e => .error e
  | .ok raw =>
    match pyIterList raw with
    | .error e => .error e
    | .ok items => .ok (items.filterMap keepFirst3)

/-- The kept-triples function as the claim and spec §4.7.1 word it: "Each
returned triple `(s, r, o)` with three non-empty strings is kept (cap 5)".
Stated only to be compared against `extractRelationsKept`. -/
def specKeptTriples (items : List JVal) : List (JVal × JVal × JVal) :=
  (items.filterMap (fun r =>
    match r with
    | .arr (.str a :: .str b :: .str c :: _) =>
      if a ≠ "" ∧ b ≠ "" ∧ c ≠ "" then some (.str a, .str b, .str c) else none
    | _ => none)).take 5

/-- `ON CONFLICT (id) DO UPDATE` upsert of the `documents` table. -/
def storeUpsert (store : List Doc) (d : Doc) : List Doc :=
  if store.any (fun x => x.id = d.id) then
    store.map (fun x => if x.id = d.id then d else x)
  else store ++ [d]

/-- Outcomes of the collaborator calls a single `learn` makes, in program
order. -/
structure LearnEnv where
  /-- `self.embedder.embed(content)`. -/
  embed : Except PyErr (List Rat)
  /-- `self.db.upsert(...)`. -/
  upsertOk : Except PyErr Unit
  /-- `if self.graph_db:`. -/
  graphConfigured : Bool
  /-- The parsed `chat_json` reply inside `_extract_relations`
  (`.error` when the LLM call or its JSON decoding raises). -/
  relationsReply : Except PyErr JVal
  /-- `self.graph_db.upsert_entities(...)`. -/
  upsertEntitiesOk : Except PyErr Unit
  /-- `self.graph_db.upsert_relations(relations)`. -/
  upsertRelationsOk : Except PyErr Unit

/-- The graph-enrichment block of `learn` (src/autoforge/engine/context.py,
lines 236-247), which the source does NOT wrap in any `try`/`except`:
relation extraction, then — only when some relations were kept — entity and
relation upserts. -/
def graphEnrich (env : LearnEnv) : Except PyErr Unit :=
  match extractRelationsKept <$> env.relationsReply      |>.bind id with
  | .error e => .error e
  | .ok rels =>
    if rels.isEmpty then .ok ()
    else
      match env.upsertEntitiesOk with
      | .error e => .error e
      | .ok _ => env.upsertRelationsOk

/-- `ContextEngine.learn` (src/autoforge/engine/context.py, lines 211-250):
embed, assemble metadata, upsert into the vector store, then graph
enrichment when a graph store is configured.  Returns the store after the
call together with the call's outcome (`.ok doc_id` or the propagated
exception); `doc_id` is the fresh UUID, passed in as a parameter. -/
def learnRun (env : LearnEnv) (docId content tenant category : String)
    (ts : Rat) (user : Option String) (md : List (String × JVal))
    (store : List Doc) : List Doc × Except PyErr String :=
  match env.embed with
  | .error e => (store, .error e)
  | .ok _vec =>
    let dm := docMetadata tenant category ts user md
    match env.upsertOk with
    | .error e => (store, .error e)
    | .ok _ =>
      let store' := storeUpsert store ⟨docId, content, dm⟩
      if env.graphConfigured then
        match graphEnrich env with
        | .error e => (store', .error e)
        | .ok _ => (store', .ok docId)
      else (store', .ok docId)

/-! ## `PgVectorDB.cleanup_old_facts` -/

def digitsVal : List Char → Option Nat
  | [] => none
  | cs => if cs.all Char.isDigit then
      some (cs.foldl (fun n c => n * 10 + (c.toNat - '0'.toNat)) 0)
    else none

/-- A SQL `::float` cast of a text value: optional sign, digits, optional
fraction (the forms arising from jsonb number images; other text aborts the
query with a cast error). -/
def parseFloatLit (s : String) : Option Rat :=
  let (sgn, body) :=
    match s.toList with
    | '-' :: rest => ((-1 : Int), rest)
    | '+' :: rest => ((1 : Int), rest)
    | cs => ((1 : Int), cs)
  match body.splitOn '.' with
  | [ip] => (digitsVal ip).map (fun n => (sgn * n : Int))
  | [ip, fp] =>
    match digitsVal ip, digitsVal fp with
    | some n, some f =>
      some ((sgn : Rat) * ((n : Rat) + (f : Rat) / ((10 : Rat) ^ fp.length)))
    | _, _ => none
  | _ => none

/-- `(metadata->>'k')::float` with SQL semantics: `NULL` stays `NULL`
(`.ok none`); non-numeric text aborts the query (`.error .castError`). -/
def sqlFloatOf (v : Option JVal) : Except PyErr (Option Rat) :=
  match v with
  | none => .ok none
  | some .null => .ok none
  | some (.int n) => .ok (some (n : Rat))
  | some (.float q) => .ok (some q)
  | some (.str s) =>
    match parseFloatLit s with
    | some q => .ok (some q)
    | none => .error .castError
  | some (.bool _) => .error .castError
  | some (.arr _) => .error .castError
  | some (.obj _) => .error .castError

/-- SQL three-valued AND (`none` = UNKNOWN). -/
def sql3and : Option Bool → Option Bool → Option Bool
  | some false, _ => some false
  | _, some false => some false
  | some true, some true => some true
  | _, _ => none

/-- The WHERE clause of `cleanup_old_facts`
(src/autoforge/adapters/pgvector.py, lines 143-159):
`metadata->>'user_id' IS NOT NULL AND (metadata->>'last_accessed')::float <
now - days*86400 AND (metadata->>'importance_score')::float < min_importance`.
A row is deleted only when the whole conjunction is SQL TRUE. -/
def cleanupPred (md : List (String × JVal)) (now : Rat) (days : Int)
    (minImp : Rat) : Except PyErr (Option Bool) :=
  match sqlFloatOf (lookupLast md "last_accessed") with
  | .error e => .error e
  | .ok la =>
    match sqlFloatOf (lookupLast md "importance_score") with
    | .error e => .error e
    | .ok imp =>
      .ok (sql3and (some (arrowText md "user_id").isSome)
            (sql3and (la.map (fun q => decide (q < now - (days : Rat) * 86400)))
                     (imp.map (fun q => decide (q < minImp)))))

/-- `cleanup_old_facts(days, min_importance)`: the surviving rows and the
deleted count. -/
def cleanupOldFacts (docs : List Doc) (now : Rat) (days : Int) (minImp : Rat) :
    List Doc × Nat :=
  let isDel : Doc → Bool := fun d =>
    match cleanupPred d.metadata now days minImp with
    | .ok (some true) => true
    | _ => false
  (docs.filter (fun d => !isDel d), (docs.filter isDel).length)

/-! ## The TTL cache and the HyDE step -/

/-- The `self._cache` dict: key → (value, expires_at).  Keys are unique;
`_cache_set` overwrites, expiry is evicted on access. -/
abbrev CacheState := List (String × String × Rat)

/-- `_cache_key(prefix, text)` concatenates the namespace with a
deterministic fingerprint of the text (first 16 hex chars of SHA-256 in the
source).  The cache claims depend only on the fingerprint being a function
of the text, so the embedding uses the text itself as its fingerprint. -/
def cacheKeyOf (ns text : String) : String := ns ++ ":" ++ text

def cacheDel (c : CacheState) (k : String) : CacheState :=
  c.filter (fun e => e.1 ≠ k)

/-- `_cache_set(key, value, ttl)`. -/
def cacheSet (c : CacheState) (k v : String) (expires : Rat) : CacheState :=
  if c.any (fun e => e.1 = k) then
    c.map (fun e => if e.1 = k then (k, v, expires) else e)
  else c ++ [(k, v, expires)]

/-- `_cache_get(key)` (src/autoforge/engine/context.py, lines 54-60):
returns the value while `time.time() < expires`, deletes the entry
otherwise. -/
def cacheGetStep (c : CacheState) (k : String) (now : Rat) :
    Option String × CacheState :=
  match c.find? (fun e => e.1 = k) with
  | some (_, v, exp) => if now < exp then (some v, c) else (none, cacheDel c k)
  | none => (none, c)

/-- `_generate_hyde(query)` (src/autoforge/engine/context.py, lines 67-78):
`if cached:` is a truthiness test, so an empty cached string falls through
to a fresh LLM call.  `reply` is the `llm.chat` response issued on a miss;
the third component counts the LLM calls this invocation made (0 or 1).
TTL is 1800 seconds. -/
def hydeStep (c : CacheState) (now : Rat) (query reply : String) :
    String × CacheState × Nat :=
  let key := cacheKeyOf "hyde" query
  let (cached, c1) := cacheGetStep c key now
  match cached with
  | some v =>
    if v ≠ "" then (v, c1, 0)
    else (reply, cacheSet c1 key reply (now + 1800), 1)
  | none => (reply, cacheSet c1 key reply (now + 1800), 1)

/-! ## Relation-label sanitisation (`Neo4jGraphDB.upsert_relations`) -/

/-- Python's Unicode `str.isalnum`, restricted to the blocks this
development evaluates it on: ASCII digits and letters, the Latin-1
supplement letters (C0–FF except the two operators × U+00D7 and ÷ U+00F7),
Hiragana, Katakana, and the CJK Unified Ideographs block — every character
in these ranges satisfies `str.isalnum` in Python.  Characters outside the
listed blocks are treated as non-alphanumeric. -/
def pyIsAlnum (c : Char) : Bool :=
  c.isDigit || c.isAlpha ||
  (0xC0 ≤ c.toNat && c.toNat ≤ 0xFF && c.toNat ≠ 0xD7 && c.toNat ≠ 0xF7) ||
  (0x3041 ≤ c.toNat && c.toNat ≤ 0x3096) ||
  (0x30A1 ≤ c.toNat && c.toNat ≤ 0x30FA) ||
  (0x4E00 ≤ c.toNat && c.toNat ≤ 0x9FFF)

/-- `safe_rel = "".join(c if c.isalnum() or c == "_" else "_" for c in rel)`
(src/autoforge/adapters/neo4j_graph.py, lines 53-70) — the label actually
stored for the MERGEd relationship. -/
def sanitizeRel (rel : String) : String :=
  String.mk (rel.toList.map (fun c => if pyIsAlnum c || c = '_' then c else '_'))

/-- A character of the class `[A-Za-z0-9_]` (ASCII only). -/
def asciiWordChar (c : Char) : Bool := c.isAlpha || c.isDigit || c = '_'

/-- The regular expression `^[A-Za-z0-9_]+$` from the claim. -/
def matchesAsciiWord (s : String) : Bool :=
  !s.toList.isEmpty && s.toList.all asciiWordChar

/-! ## The tenacity retry wrapper of the LLM client -/

/-- Result of a tenacity-wrapped call: success, an exception propagated
unwrapped (only when the retry predicate rejects it), or the `RetryError`
tenacity raises once `stop_after_attempt` is reached. -/
inductive RunOutcome (α : Type) where
  | ok (a : α)
  | raised (e : PyErr)
  | retryErr (last : PyErr)
deriving Repr, BEq

/-- The tenacity loop: run attempt `i`; on an exception consult the retry
predicate (propagate unwrapped when it rejects), then the stop condition
(`stop_after_attempt maxA`: wrap the last exception once `maxA` attempts
have run), else retry.  `fuel` only ensures termination and is set to
`maxA` by `tenacityRun`. -/
def tenacityGo (retryOn : PyErr → Bool) (maxA : Nat)
    (attempt : Nat → Except PyErr α) : Nat → Nat → RunOutcome α × Nat
  | i, 0 => (.retryErr .transport, i)
  | i, fuel + 1 =>
    match attempt i with
    | .ok a => (.ok a, i + 1)
    | .error e =>
      if retryOn e then
        if maxA ≤ i + 1 then (.retryErr e, i + 1)
        else tenacityGo retryOn maxA attempt (i + 1) fuel
      else (.raised e, i + 1)

/-- Run a tenacity-decorated body; the second component is the number of
attempts executed. -/
def tenacityRun (retryOn : PyErr → Bool) (maxA : Nat)
    (attempt : Nat → Except PyErr α) : RunOutcome α × Nat :=
  tenacityGo retryOn maxA attempt 0 maxA

/-- `TokenAwareLLMClient.chat` (src/autoforge/adapters/llm_client.py, lines
56-90): decorated with `@retry(stop=stop_after_attempt(3),
wait=wait_exponential(min=1, max=15))` and **no** `retry=` argument, so
tenacity's default predicate — retry on *any* `Exception` — applies.
`attempt n` is the outcome of the n-th execution of the body: transport
failures, rate-limit and other HTTP-status errors from the OpenAI client
all surface there. -/
def chatRun (attempt : Nat → Except PyErr String) : RunOutcome String × Nat :=
  tenacityRun (fun _ => true) 3 attempt

/-- `TokenAwareLLMClient.chat_json` (src/autoforge/adapters/llm_client.py,
lines 92-120): same decorator, same default predicate.  The
`json.loads(content)` sits *inside* the decorated body's `try`, so a
JSON-decode failure is one more retried exception; `attempt n` is the
outcome of the n-th body execution (`.error .jsonDecode` for an unparsable
reply, `.error .http4xx` for a client-error status, etc.). -/
def chatJsonRun (attempt : Nat → Except PyErr JVal) : RunOutcome JVal × Nat :=
  tenacityRun (fun _ => true) 3 attempt

/-! ## Concrete inputs used by the witnesses and counterexamples -/

/-- A sales proposal whose only recommendation carries
`discount_max_percent = 50`. -/
def salesCx : JVal :=
  .obj [("recommendations", .arr [
    .obj [("type", .str "pricing"), ("action", .str "値引き"),
          ("specific_values", .obj [("discount_max_percent", .int 50)])]])]

/-- A document stored under tenant `"t2"`. -/
def docT2 : Doc := ⟨"2", "beta", [("tenant_id", .str "t2")]⟩

/-- A two-tenant store with trivial collaborator replies. -/
def envW : SearchEnv :=
  ⟨[⟨"1", "alpha", [("tenant_id", .str "t1")]⟩, docT2],
   "h", fun _ _ => 0, fun _ => [], false, fun _ => [], []⟩

/-- The default `settings` values (max_hops 3, rag_top_k 5,
rerank_candidates_max 50, rerank_final_limit 20). -/
def cfgW : SearchCfg := ⟨3, 5, 50, 20⟩

/-- A `learn` run whose relation-extraction LLM call raises a transport
error while embedding and vector upsert succeed and a graph store is
configured. -/
def envL : LearnEnv := ⟨.ok [1], .ok (), true, .error .transport, .ok (), .ok ()⟩

/-- A relation-extraction reply with six length-3 triples, the first of
which has an empty subject. -/
def relItems : List JVal :=
  [.arr [.str "", .str "r", .str "o"],
   .arr [.str "a1", .str "b1", .str "c1"],
   .arr [.str "a2", .str "b2", .str "c2"],
   .arr [.str "a3", .str "b3", .str "c3"],
   .arr [.str "a4", .str "b4", .str "c4"],
   .arr [.str "a5", .str "b5", .str "c5"]]

def relReply : JVal := .obj [("relations", .arr relItems)]

/-- A personal fact that has never been retrieved: `user_id` is set, there
is no `last_accessed` key, it is old (`timestamp` 0) and unimportant. -/
def docPersonal : Doc :=
  ⟨"p", "fact",
   [("tenant_id", .str "t1"), ("user_id", .str "u"),
    ("timestamp", .float 0), ("access_count", .int 0),
    ("importance_score", .float 1)]⟩

/-! ## Helper lemmas -/

theorem runAudit_valid_iff {rules : JVal → JVal → Except PyErr (List String × List String)}
    {p : JVal} {a : AuditResult} (h : runAudit rules p = .ok a) :
    a.is_valid = true ↔ a.errors = [] := by
  unfold runAudit at h
  split at h
  · cases h
  · cases h
    simp [emptyProposalResult]
  · split at h
    · cases h
    · cases h
      simp [mkAudit, List.isEmpty_iff]

theorem audit_proposal_valid_iff {p : JVal} {d : String} {a : AuditResult}
    (h : audit_proposal p d = .ok a) :
    a.is_valid = true ↔ a.errors = [] := by
  unfold audit_proposal at h
  split at h
  · cases h
  · split at h
    · split at h
      · exact runAudit_valid_iff h
      · split at h
        · exact runAudit_valid_iff h
        · split at h
          · exact runAudit_valid_iff h
          · split at h
            · exact runAudit_valid_iff h
            · cases h
              simp
    · cases h
      simp [emptyProposalResult]

theorem insertByRank_subset {rank : Doc → Rat} {d x : Doc} {l : List Doc}
    (h : x ∈ insertByRank rank d l) : x = d ∨ x ∈ l := by
  induction l with
  | nil => simpa [insertByRank] using h
  | cons y ys ih =>
    unfold insertByRank at h
    split at h
    · exact List.mem_cons.mp h
    · rcases List.mem_cons.mp h with h1 | h2
      · exact Or.inr (by simp [h1])
      · rcases ih h2 with h3 | h4
        · exact Or.inl h3
        · exact Or.inr (List.mem_cons_of_mem _ h4)

theorem foldl_insertByRank_subset {rank : Doc → Rat} {x : Doc} (l acc : List Doc)
    (h : x ∈ l.foldl (fun s d => insertByRank rank d s) acc) : x ∈ acc ∨ x ∈ l := by
  induction l generalizing acc with
  | nil => exact Or.inl h
  | cons y ys ih =>
    simp only [List.foldl] at h
    rcases ih _ h with h1 | h2
    · rcases insertByRank_subset h1 with h3 | h4
      · exact Or.inr (by simp [h3])
      · exact Or.inl h4
    · exact Or.inr (List.mem_cons_of_mem _ h2)

theorem sortByRank_subset {rank : Doc → Rat} {x : Doc} {l : List Doc}
    (h : x ∈ sortByRank rank l) : x ∈ l := by
  unfold sortByRank at h
  rcases foldl_insertByRank_subset _ _ h with h1 | h2
  · cases h1
  · exact h2

theorem dbSearch_subset {docs : List Doc} {rank : Doc → Rat} {k : Nat}
    {F : List (String × String)} {d : Doc} (h : d ∈ dbSearch docs rank k F) :
    d ∈ docs ∧ matchesFilter d.metadata F = true := by
  unfold dbSearch at h
  have h2 := sortByRank_subset (List.mem_of_mem_take h)
  exact ⟨(List.mem_filter.mp h2).1, (List.mem_filter.mp h2).2⟩

theorem accPut_pred {P : Doc → Prop} {acc : List Doc} {d : Doc}
    (ha : ∀ x ∈ acc, P x) (hd : P d) : ∀ x ∈ accPut acc d, P x := by
  intro x hx
  unfold accPut at hx
  split at hx
  · rcases List.mem_map.mp hx with ⟨y, hy, hxy⟩
    by_cases hid : y.id = d.id
    · rw [if_pos hid] at hxy
      exact hxy ▸ hd
    · rw [if_neg hid] at hxy
      exact hxy ▸ ha y hy
  · rcases List.mem_append.mp hx with h1 | h2
    · exact ha x h1
    · rw [List.mem_singleton.mp h2]
      exact hd

theorem accInsertNew_pred {P : Doc → Prop} {acc : List Doc} {d : Doc}
    (ha : ∀ x ∈ acc, P x) (hd : P d) : ∀ x ∈ accInsertNew acc d, P x := by
  intro x hx
  unfold accInsertNew at hx
  split at hx
  · exact ha x hx
  · rcases List.mem_append.mp hx with h1 | h2
    · exact ha x h1
    · rw [List.mem_singleton.mp h2]
      exact hd

theorem foldl_accPut_pred {P : Doc → Prop} {new : List Doc} {acc : List Doc}
    (ha : ∀ x ∈ acc, P x) (hn : ∀ x ∈ new, P x) :
    ∀ x ∈ new.foldl accPut acc, P x := by
  induction new generalizing acc with
  | nil => exact ha
  | cons y ys ih =>
    simp only [List.foldl]
    exact ih (accPut_pred ha (hn y (by simp)))
      (fun z hz => hn z (List.mem_cons_of_mem _ hz))

theorem foldl_accInsertNew_pred {P : Doc → Prop} {new : List Doc} {acc : List Doc}
    (ha : ∀ x ∈ acc, P x) (hn : ∀ x ∈ new, P x) :
    ∀ x ∈ new.foldl accInsertNew acc, P x := by
  induction new generalizing acc with
  | nil => exact ha
  | cons y ys ih =>
    simp only [List.foldl]
    exact ih (accInsertNew_pred ha (hn y (by simp)))
      (fun z hz => hn z (List.mem_cons_of_mem _ hz))

theorem hopBody_pred {env : SearchEnv} {F : List (String × String)} {acc : List Doc}
    (ha : ∀ x ∈ acc, matchesFilter x.metadata F = true) :
    ∀ x ∈ hopBody env F acc, matchesFilter x.metadata F = true := by
  intro x hx
  unfold hopBody at hx
  dsimp only at hx
  split at hx
  · split at hx
    · exact foldl_accInsertNew_pred ha (fun z hz => (dbSearch_subset hz).2) x hx
    · exact ha x hx
  · exact ha x hx

theorem hopLoop_pred {env : SearchEnv} {F : List (String × String)} {candMax : Nat}
    {n : Nat} {acc : List Doc}
    (ha : ∀ x ∈ acc, matchesFilter x.metadata F = true) :
    ∀ x ∈ hopLoop env F candMax n acc, matchesFilter x.metadata F = true := by
  induction n generalizing acc with
  | zero => exact ha
  | succ m ih =>
    intro x hx
    unfold hopLoop at hx
    dsimp only at hx
    split at hx
    · exact ha x hx
    · split at hx
      · exact hopBody_pred ha x hx
      · exact ih (hopBody_pred ha) x hx

theorem rerankChosen_subset {docs : List Doc} {js : List JVal} {d : Doc}
    (h : d ∈ rerankChosen docs js) : d ∈ docs := by
  induction js with
  | nil => cases h
  | cons j js ih =>
    unfold rerankChosen at h
    rcases List.mem_append.mp h with h1 | h2
    · split at h1
      · split at h1
        · split at h1
          · next hget =>
            rw [List.mem_singleton.mp h1]
            exact List.get?_mem hget
          · cases h1
        · cases h1
      · cases h1
    · exact ih h2

theorem rerankStep_subset {lim : Nat} {ranked : List JVal} {docs : List Doc} {d : Doc}
    (h : d ∈ rerankStep lim ranked docs) : d ∈ docs := by
  unfold rerankStep at h
  dsimp only at h
  split at h
  · exact h
  · split at h
    · exact List.mem_of_mem_take h
    · exact rerankChosen_subset h

theorem engineSearch_filter {env : SearchEnv} {cfg : SearchCfg} {tenant : String}
    {user : Option String} {d : Doc} (h : d ∈ engineSearch env cfg tenant user) :
    matchesFilter d.metadata (filterOf tenant user) = true := by
  unfold engineSearch at h
  dsimp only at h
  have hacc : ∀ x ∈ (dbSearch env.docs (env.rank env.hyde) cfg.ragTopK
      (filterOf tenant user)).foldl accPut [],
      matchesFilter x.metadata (filterOf tenant user) = true :=
    foldl_accPut_pred (fun x hx => absurd hx (List.not_mem_nil x))
      (fun z hz => (dbSearch_subset hz).2)
  split at h
  · exact hopLoop_pred hacc d (rerankStep_subset h)
  · exact hopLoop_pred hacc d h

theorem sqlTextEq_eq {v : Option String} {s : String} (h : sqlTextEq v s = true) :
    v = some s := by
  cases v with
  | none => cases h
  | some t =>
    simp [sqlTextEq] at h
    rw [h]

theorem lookupLast_foldl (k : String) (l : List (String × JVal)) (init : Option JVal) :
    l.foldl (fun acc p => if p.1 = k then some p.2 else acc) init
      = (lookupLast l k).or init := by
  induction l generalizing init with
  | nil => simp [lookupLast, Option.or]
  | cons p l ih =>
    have hcons : lookupLast (p :: l) k
        = (lookupLast l k).or (if p.1 = k then some p.2 else none) := by
      unfold lookupLast
      simp only [List.foldl]
      exact ih _
    simp only [List.foldl]
    rw [ih, hcons]
    cases hl : lookupLast l k <;> by_cases hp : p.1 = k <;> simp [hp, Option.or]

theorem lookupLast_append (a b : List (String × JVal)) (k : String) :
    lookupLast (a ++ b) k = (lookupLast b k).or (lookupLast a k) := by
  show (a ++ b).foldl _ none = _
  rw [List.foldl_append]
  exact lookupLast_foldl k b _

theorem storeUpsert_self_mem (store : List Doc) (d : Doc) : d ∈ storeUpsert store d := by
  unfold storeUpsert
  split
  · next h =>
    rcases List.any_eq_true.mp h with ⟨x, hx, hxid⟩
    refine List.mem_map.mpr ⟨x, hx, ?_⟩
    simp only [decide_eq_true_eq] at hxid
    simp [hxid]
  · exact List.mem_append.mpr (Or.inr (by simp))

theorem sql3and_none_middle (u : Bool) (x : Option Bool) :
    sql3and (some u) (sql3and none x) ≠ some true := by
  cases u <;> rcases x with _ | b <;> try cases b
  all_goals decide

theorem cleanupPred_no_last (md : List (String × JVal)) (now : Rat) (days : Int)
    (minImp : Rat) (hla : lookupLast md "last_accessed" = none) :
    cleanupPred md now days minImp ≠ .ok (some true) := by
  unfold cleanupPred
  rw [hla]
  rcases himp : sqlFloatOf (lookupLast md "importance_score") with e | imp <;>
    simp only [himp] <;> simp only [sqlFloatOf] <;> intro hb
  · cases hb
  · exact sql3and_none_middle _ _ (by simpa using Except.ok.inj hb)

/-! ## Claim theorems -/

/-- C1 (confirmed): tenant isolation of retrieval — for every stored fact
and every `ContextEngine.search` call issued with `tenant_id = T` (so with
filter `{tenant_id: T}`), a document whose metadata `tenant_id` does not
read back as `T` never appears in the returned list, for every behaviour of
the LLM, embedder and graph collaborators. -/
theorem c1_tenant_isolation (env : SearchEnv) (cfg : SearchCfg) (tenant : String)
    (user : Option String) (d : Doc)
    (hne : arrowText d.metadata "tenant_id" ≠ some tenant) :
    d ∉ engineSearch env cfg tenant user := by
  intro hmem
  have hf := engineSearch_filter hmem
  have h1 := (List.all_eq_true.mp hf) ("tenant_id", tenant) (by simp [filterOf])
  exact hne (sqlTextEq_eq (by simpa using h1))

/-- Witness for C1: a document stored under tenant `"t2"` is not returned
by a search under tenant `"t1"` on a concrete two-document store. -/
theorem c1_witness :
    arrowText docT2.metadata "tenant_id" ≠ some "t1" ∧
    docT2 ∉ engineSearch envW cfgW "t1" none :=
  ⟨by decide, c1_tenant_isolation envW cfgW "t1" none docT2 (by decide)⟩

/-- C2 (code_bug): `ContextEngine.propose` audits via the engine's own
`_audit`, which has no `"sales"` branch, so a sales proposal whose
recommendation carries `discount_max_percent = 50` is audited as valid with
no errors — while the domain registry's `audit_proposal`, which the spec
prescribes and which delegates to `sales.audit`, flags it invalid with a
non-empty error list. -/
theorem c2_propose_sales_audit_gap :
    proposeAuditStep salesCx "sales" = .ok ⟨true, [], []⟩ ∧
    audit_proposal salesCx "sales" = salesAudit salesCx ∧
    salesAudit salesCx =
      .ok ⟨false, ["割引率 50% は上限40%を超えています"],
           ["顧客分析（customer_analysis）が含まれていません",
            "フォローアップ戦略が含まれていません"]⟩ :=
  ⟨rfl, rfl, rfl⟩

/-- C3 (confirmed): every `AuditResult` produced by any audit — the
engine's `_audit` over any domain string (unknown domains included), the
registry's `audit_proposal`, and each domain module's `audit` — satisfies
`is_valid = true ↔ errors = []`; warnings never contribute. -/
theorem c3_audit_valid_iff_no_errors (p : JVal) (d : String) (a : AuditResult)
    (h : engineAudit p d = .ok a ∨ audit_proposal p d = .ok a ∨
         adAudit p = .ok a ∨ musicAudit p = .ok a ∨
         salesAudit p = .ok a ∨ csAudit p = .ok a) :
    a.is_valid = true ↔ a.errors = [] := by
  rcases h with h | h | h | h | h | h
  · exact runAudit_valid_iff h
  · exact audit_proposal_valid_iff h
  · exact runAudit_valid_iff h
  · exact runAudit_valid_iff h
  · exact runAudit_valid_iff h
  · exact runAudit_valid_iff h

/-- Witness for C3 at a concrete empty proposal audited by the engine under
domain `"sales"`. -/
theorem c3_witness :
    engineAudit (.obj []) "sales" = .ok emptyProposalResult ∧
    (emptyProposalResult.is_valid = true ↔ emptyProposalResult.errors = []) :=
  ⟨rfl, c3_audit_valid_iff_no_errors (.obj []) "sales" emptyProposalResult (Or.inl rfl)⟩

/-- Counterexample for C4: a `learn` call whose embedding and vector upsert
succeed and whose configured graph store's enrichment (here: the
relation-extraction LLM call) raises a transport error does NOT return the
new document id — the error propagates out of `learn`, because the graph
block in the source has no `try`/`except`. -/
theorem c4_counterexample :
    (learnRun envL "id1" "c" "t" "general" 0 none [] []).2 = .error .transport ∧
    (learnRun envL "id1" "c" "t" "general" 0 none [] []).2 ≠ .ok "id1" :=
  ⟨rfl, fun h => nomatch h⟩

/-- C4 (corrected): when embedding and the vector-store upsert succeed, a
graph store is configured, and the graph-enrichment step raises an error
`e`, `learn` propagates `e` (it does not catch, log and skip it, and does
not return the document id); the fact has nevertheless already been stored
by the preceding upsert. -/
theorem c4_graph_error_propagates (env : LearnEnv)
    (docId content tenant category : String) (ts : Rat) (user : Option String)
    (md : List (String × JVal)) (store : List Doc) (e : PyErr) (vec : List Rat)
    (hemb : env.embed = .ok vec) (hup : env.upsertOk = .ok ())
    (hg : env.graphConfigured = true) (herr : graphEnrich env = .error e) :
    (learnRun env docId content tenant category ts user md store).2 = .error e ∧
    (⟨docId, content, docMetadata tenant category ts user md⟩ : Doc)
      ∈ (learnRun env docId content tenant category ts user md store).1 := by
  constructor
  · simp [learnRun, hemb, hup, hg, herr]
  · simp only [learnRun, hemb, hup, hg, herr, if_true]
    exact storeUpsert_self_mem store _

/-- Witness for C4 at the concrete failing environment. -/
theorem c4_witness :
    (learnRun envL "id1" "c" "t" "general" 0 none [] []).2 = .error .transport ∧
    (⟨"id1", "c", docMetadata "t" "general" 0 none []⟩ : Doc)
      ∈ (learnRun envL "id1" "c" "t" "general" 0 none [] []).1 :=
  c4_graph_error_propagates envL "id1" "c" "t" "general" 0 none [] []
    .transport [1] rfl rfl rfl rfl

/-- Counterexample for C5: the label `"é"` (U+00E9, alphanumeric for
Python's Unicode `str.isalnum`) is stored unchanged by the sanitisation in
`upsert_relations` and does not match `^[A-Za-z0-9_]+$`. -/
theorem c5_counterexample :
    sanitizeRel "é" = "é" ∧ matchesAsciiWord (sanitizeRel "é") = false :=
  ⟨rfl, rfl⟩

/-- C5 (corrected): the stored relation label is sanitised characterwise to
Python's *Unicode* `str.isalnum` alphabet plus underscore — every character
outside that alphabet is replaced by `_` — but non-ASCII alphanumeric
characters survive, so the stored label need not match `^[A-Za-z0-9_]+$`
(and an empty input stays empty). -/
theorem c5_sanitize_alphabet (rel : String) (c : Char)
    (hc : c ∈ (sanitizeRel rel).toList) :
    pyIsAlnum c = true ∨ c = '_' := by
  unfold sanitizeRel at hc
  rcases List.mem_map.mp hc with ⟨x, _hx, hxc⟩
  by_cases h : pyIsAlnum x || x = '_'
  · rw [if_pos h] at hxc
    subst hxc
    rcases Bool.or_eq_true _ _ |>.mp h with h1 | h2
    · exact Or.inl h1
    · exact Or.inr (by simpa using h2)
  · rw [if_neg h] at hxc
    subst hxc
    exact Or.inr rfl

/-- Witness for C5 at the concrete label `"xé-y"`. -/
theorem c5_witness :
    'é' ∈ (sanitizeRel "xé-y").toList ∧ (pyIsAlnum 'é' = true ∨ 'é' = '_') :=
  ⟨by decide, c5_sanitize_alphabet "xé-y" 'é' (by decide)⟩

/-- Counterexample for C6: when the first HyDE reply is the empty string,
a second call for the same query 10 seconds later (well inside the 1800 s
TTL) issues a second LLM call — `if cached:` is a truthiness test, so the
cached empty string is ignored — for a total of 2, not 1. -/
theorem c6_counterexample :
    (hydeStep [] 0 "q" "").2.2 + (hydeStep (hydeStep [] 0 "q" "").2.1 10 "q" "other").2.2 = 2 ∧
    (hydeStep (hydeStep [] 0 "q" "").2.1 10 "q" "other").1 = "other" := by
  constructor <;>
    norm_num [hydeStep, cacheGetStep, cacheSet, cacheKeyOf, List.find?]

/-- C6 (corrected): starting from an empty cache, two HyDE calls for the
same query within the 1800-second TTL issue exactly one LLM chat call in
total and the second call returns the cached value — provided the first
call's reply is a non-empty string (an empty reply is falsy and bypasses
the cache on the second call). -/
theorem c6_hyde_cache_determinism (q r1 r2 : String) (t0 t1 : Rat)
    (hr : r1 ≠ "") (ht : t1 < t0 + 1800) :
    (hydeStep [] t0 q r1).2.2 + (hydeStep (hydeStep [] t0 q r1).2.1 t1 q r2).2.2 = 1 ∧
    (hydeStep (hydeStep [] t0 q r1).2.1 t1 q r2).1 = r1 := by
  have h1 : hydeStep [] t0 q r1 = (r1, [(cacheKeyOf "hyde" q, r1, t0 + 1800)], 1) := by
    simp [hydeStep, cacheGetStep, cacheSet]
  rw [h1]
  simp [hydeStep, cacheGetStep, List.find?, ht, hr]

/-- Witness for C6 at a concrete query and times. -/
theorem c6_witness :
    (hydeStep [] 0 "q" "h").2.2 + (hydeStep (hydeStep [] 0 "q" "h").2.1 10 "q" "x").2.2 = 1 ∧
    (hydeStep (hydeStep [] 0 "q" "h").2.1 10 "q" "x").1 = "h" :=
  c6_hyde_cache_determinism "q" "h" "x" 0 10 (by decide) (by norm_num)

/-- Counterexample for C7: on a reply with six length-3 triples the first
of which has an empty-string subject, `_extract_relations` keeps all six —
including the empty-subject one — while the claim's rule (three non-empty
strings, cap 5) would keep five. -/
theorem c7_counterexample :
    extractRelationsKept relReply =
      .ok [(.str "", .str "r", .str "o"),
           (.str "a1", .str "b1", .str "c1"),
           (.str "a2", .str "b2", .str "c2"),
           (.str "a3", .str "b3", .str "c3"),
           (.str "a4", .str "b4", .str "c4"),
           (.str "a5", .str "b5", .str "c5")] ∧
    (specKeptTriples relItems).length = 5 :=
  ⟨rfl, rfl⟩

/-- C7 (corrected): the triples kept from a relation-extraction reply are
exactly the first three components of every entry of `"relations"` that is
a list of length ≥ 3 — with no check that the components are non-empty
strings and with no cap on the count; in particular every such list entry
contributes a triple. -/
theorem c7_kept_triples (items : List JVal) (kept : List (JVal × JVal × JVal))
    (h : extractRelationsKept (.obj [("relations", .arr items)]) = .ok kept) :
    kept = items.filterMap keepFirst3 ∧
    ∀ a b c rest, JVal.arr (a :: b :: c :: rest) ∈ items → (a, b, c) ∈ kept := by
  have h' : kept = items.filterMap keepFirst3 := by
    simp [extractRelationsKept, pyGetD, lookupLast, pyIterList] at h
    exact h.symm
  refine ⟨h', ?_⟩
  intro a b c rest hmem
  rw [h']
  exact List.mem_filterMap.mpr ⟨_, hmem, rfl⟩

/-- Witness for C7 at a concrete one-triple reply with an empty subject. -/
theorem c7_witness :
    extractRelationsKept (.obj [("relations",
        .arr [JVal.arr [.str "", .str "r", .str "o"]])]) =
      .ok [(JVal.str "", JVal.str "r", JVal.str "o")] ∧
    (JVal.str "", JVal.str "r", JVal.str "o")
      ∈ [(JVal.str "", JVal.str "r", JVal.str "o")] :=
  ⟨rfl, (c7_kept_triples [JVal.arr [.str "", .str "r", .str "o"]]
      [(JVal.str "", JVal.str "r", JVal.str "o")] rfl).2
      (JVal.str "") (JVal.str "r") (JVal.str "o") [] (List.mem_singleton.mpr rfl)⟩

/-- Counterexample for C8: a `chat_json` whose first attempt fails with a
JSON-decode error is retried — tenacity's default predicate retries every
exception — and returns the second attempt's value after 2 attempts; a
`chat` whose first attempt fails with a non-rate-limit 4xx is likewise
retried.  Neither error is surfaced after a single attempt. -/
theorem c8_counterexample :
    chatJsonRun (fun n => if n = 0 then .error .jsonDecode else .ok (.obj [])) =
      (.ok (.obj []), 2) ∧
    chatRun (fun n => if n = 0 then .error .http4xx else .ok "r") = (.ok "r", 2) :=
  ⟨rfl, rfl⟩

/-- C8 (corrected): `chat` and `chat_json` retry *every* exception of the
attempt body — transport, 5xx, rate-limit, 4xx and JSON-decode errors alike
— up to 3 attempts total, and only after the third failed attempt is an
error surfaced (wrapped in tenacity's `RetryError`). -/
theorem c8_retry_every_exception (attempt : Nat → Except PyErr JVal) :
    (∀ v, attempt 0 = .ok v → chatJsonRun attempt = (.ok v, 1)) ∧
    (∀ e0 v, attempt 0 = .error e0 → attempt 1 = .ok v →
      chatJsonRun attempt = (.ok v, 2)) ∧
    (∀ e0 e1 v, attempt 0 = .error e0 → attempt 1 = .error e1 →
      attempt 2 = .ok v → chatJsonRun attempt = (.ok v, 3)) ∧
    (∀ e0 e1 e2, attempt 0 = .error e0 → attempt 1 = .error e1 →
      attempt 2 = .error e2 → chatJsonRun attempt = (.retryErr e2, 3)) := by
  refine ⟨?_, ?_, ?_, ?_⟩ <;> intros <;>
    simp [chatJsonRun, tenacityRun, tenacityGo, *]

/-- Witness for C8: the JSON-decode failure of attempt 0 is retried and the
run succeeds on attempt 1. -/
theorem c8_witness :
    chatJsonRun (fun n => if n = 0 then Except.error PyErr.jsonDecode
      else .ok (.obj [])) = (.ok (.obj []), 2) :=
  (c8_retry_every_exception _).2.1 .jsonDecode (.obj []) rfl rfl

/-- C9 (confirmed, implicit behaviour): in `learn`, the caller-supplied
metadata map is merged last over the engine-set reserved keys, so a
caller-supplied `tenant_id` replaces the engine-set one; consequently the
stored fact does not satisfy the tenant filter of a subsequent search under
the request tenant and is never returned by it. -/
theorem c9_metadata_override (tenant category : String) (ts : Rat)
    (user : Option String) (md : List (String × JVal)) (v : JVal)
    (hv : lookupLast md "tenant_id" = some v)
    (hne : jvalSqlText v ≠ some tenant) :
    lookupLast (docMetadata tenant category ts user md) "tenant_id" = some v ∧
    ∀ (env : SearchEnv) (cfg : SearchCfg) (i c : String) (u : Option String),
      (⟨i, c, docMetadata tenant category ts user md⟩ : Doc)
        ∉ engineSearch env cfg tenant u := by
  have hl : lookupLast (docMetadata tenant category ts user md) "tenant_id" = some v := by
    unfold docMetadata
    rw [lookupLast_append, hv]
    rfl
  refine ⟨hl, ?_⟩
  intro env cfg i c u hmem
  have hf := engineSearch_filter hmem
  have h1 := (List.all_eq_true.mp hf) ("tenant_id", tenant) (by simp [filterOf])
  have h2 := sqlTextEq_eq (v := arrowText (docMetadata tenant category ts user md) "tenant_id")
    (by simpa using h1)
  unfold arrowText at h2
  rw [hl] at h2
  exact hne (by simpa using h2)

/-- Witness for C9: caller metadata `{"tenant_id": "evil"}` wins over the
request tenant `"t1"`, and the stored fact is absent from a concrete search
under `"t1"`. -/
theorem c9_witness :
    lookupLast (docMetadata "t1" "general" 0 none [("tenant_id", JVal.str "evil")])
      "tenant_id" = some (JVal.str "evil") ∧
    (⟨"i", "c", docMetadata "t1" "general" 0 none [("tenant_id", JVal.str "evil")]⟩ : Doc)
      ∉ engineSearch envW cfgW "t1" none :=
  ⟨(c9_metadata_override "t1" "general" 0 none [("tenant_id", JVal.str "evil")]
      (JVal.str "evil") rfl (by decide)).1,
   (c9_metadata_override "t1" "general" 0 none [("tenant_id", JVal.str "evil")]
      (JVal.str "evil") rfl (by decide)).2 envW cfgW "i" "c" none⟩

/-- C10 (confirmed, implicit behaviour): `cleanup_old_facts` deletes a row
only when the `last_accessed` comparison is SQL TRUE; a fact whose metadata
has no `last_accessed` key yields SQL NULL there, the WHERE conjunction is
never TRUE, and the fact survives every cleanup regardless of its
`timestamp`, `importance_score`, or `user_id`. -/
theorem c10_never_accessed_survives (docs : List Doc) (d : Doc) (now : Rat)
    (days : Int) (minImp : Rat) (hd : d ∈ docs)
    (hla : lookupLast d.metadata "last_accessed" = none) :
    cleanupPred d.metadata now days minImp ≠ .ok (some true) ∧
    d ∈ (cleanupOldFacts docs now days minImp).1 := by
  have hp := cleanupPred_no_last d.metadata now days minImp hla
  refine ⟨hp, ?_⟩
  refine List.mem_filter.mpr ⟨hd, ?_⟩
  rcases hcp : cleanupPred d.metadata now days minImp with e | b
  · simp [hcp]
  · rcases b with _ | b
    · simp [hcp]
    · cases b
      · simp [hcp]
      · exact absurd hcp hp

/-- Witness for C10: the concrete never-retrieved personal fact survives a
cleanup with the default parameters at a late `now`. -/
theorem c10_witness :
    cleanupPred docPersonal.metadata 10000000 30 2 ≠ .ok (some true) ∧
    docPersonal ∈ (cleanupOldFacts [docPersonal] 10000000 30 2).1 :=
  c10_never_accessed_survives [docPersonal] docPersonal 10000000 30 2
    (List.mem_singleton.mpr rfl) rfl
